import Mathlib

/-!
A shallow embedding of the alert-management core of the
Real-Time-Decentralized-Exchange-DEX-Monitoring-System repository
(`src/dex_monitor/alerts/alert_manager.py`), together with theorems
settling the behavioural claims about it.

Conventions of the embedding:
* Python floats become `ℚ` (exact arithmetic; every literal in the claims
  is exactly representable and no comparison in the claims sits on a
  binary-rounding boundary).
* `datetime` values become `ℚ` (seconds); `datetime.utcnow()` becomes an
  explicit `now` parameter threaded into each entry point;
  `timedelta(minutes=10)` becomes the rational `600`.
* `uuid.uuid4()` becomes a fresh-counter `nextId` in the state: the only
  property the code uses of ids is that each generated id is fresh.
* Python dicts keyed by strings become association lists with
  last-write-wins insertion; `collections.deque(maxlen=n)` becomes a list
  with FIFO eviction (`dequePush`).
* Human-readable `message` strings (f-strings with float formatting) are
  elided from the `Alert` record: no claim inspects them.
* `DatabaseManager` (module `dex_monitor/data/database.py`, absent from
  the sources) is modelled from the spec as a sink whose `insert_alert`
  may fail, raising to the caller; raising is represented by
  `Except AMState`, the error value carrying the state at the raise
  point, so that the `try/except` in `process_event` can be embedded
  faithfully.
-/

/-- Modelled from the spec (§3 Data Model; `dex_monitor/core/models.py` is
absent from the sources): a token with normalized symbol, address,
decimal precision, display name and optional last-known USD price. -/
structure Token where
  symbol : String
  address : String
  decimals : Nat
  name : String
  currentPrice : Option ℚ := none
  deriving DecidableEq, Repr

/-- Modelled from the spec (§3): an ordered pair of tokens with a pool
address and a fee tier. -/
structure TradingPair where
  token0 : Token
  token1 : Token
  poolAddress : String
  feeTier : ℚ
  deriving DecidableEq, Repr

/-- Modelled from the spec (§3): derived display name `symbol0/symbol1`. -/
def TradingPair.pairName (p : TradingPair) : String :=
  p.token0.symbol ++ "/" ++ p.token1.symbol

/-- Modelled from the spec: the event/alert kind tags used by
`alert_manager.py` (`EventType` in the absent `core/models.py`). -/
inductive EventType where
  | swap
  | liquidityAdd
  | liquidityRemove
  | priceUpdate
  | depegAlert
  | volumeSpike
  | priceChange
  deriving DecidableEq, Repr

/-- Modelled from the spec (§3): alert severity levels. -/
inductive AlertSeverity where
  | low
  | medium
  | high
  | critical
  deriving DecidableEq, Repr

/-- Modelled from the spec (§3): the typed extra fields carried by the
alert specializations `DepegAlert` and `VolumeAlert`. -/
inductive AlertExtra where
  | generic
  | depeg (token : Token) (expectedPrice actualPrice deviationPercent : ℚ)
      (pair : TradingPair)
  | volume (pair : TradingPair)
      (currentVolume averageVolume spikeMultiplier : ℚ)
  deriving DecidableEq, Repr

/-- Modelled from the spec (§3): the alert envelope (`Alert` in the absent
`core/models.py`). The formatted `message` string is elided. -/
structure Alert where
  id : Nat
  timestamp : ℚ
  eventType : EventType
  severity : AlertSeverity
  title : String
  extra : AlertExtra := .generic
  resolved : Bool := false
  resolvedAt : Option ℚ := none
  deriving DecidableEq, Repr

/-- Modelled from the spec (§3) and corroborated by
`tests/test_models.py::test_alert_resolution`: `Alert.resolve()` sets
`resolved = true` and `resolved_at = now`. -/
def Alert.resolve (a : Alert) (now : ℚ) : Alert :=
  { a with resolved := true, resolvedAt := some now }

/-- Modelled from the spec (§3): `SwapEvent` value object. -/
structure SwapEvent where
  timestamp : ℚ
  pair : TradingPair
  tokenIn : Token
  tokenOut : Token
  amountIn : ℚ
  amountOut : ℚ
  price : ℚ
  transactionHash : String
  blockNumber : Nat
  deriving DecidableEq, Repr

/-- Modelled from the spec (§3): `LiquidityEvent` value object; its
`event_type` is `liquidityAdd` or `liquidityRemove`. -/
structure LiquidityEvent where
  timestamp : ℚ
  pair : TradingPair
  eventType : EventType
  liquidityDelta : ℚ
  provider : String
  deriving DecidableEq, Repr

/-- Modelled from the spec (§3): `PriceData` value object
(`PriceUpdate` in the spec's vocabulary). -/
structure PriceData where
  timestamp : ℚ
  token : Token
  priceUsd : ℚ
  priceChange24h : Option ℚ := none
  volume24h : Option ℚ := none
  deriving DecidableEq, Repr

/-- The union of event variants dispatched on by
`AlertManager.process_event`; `other` stands for a value of any type not
matched by the `isinstance` chain. -/
inductive Event where
  | swap (e : SwapEvent)
  | liquidity (e : LiquidityEvent)
  | price (d : PriceData)
  | other
  deriving DecidableEq, Repr

/-- One entry of a price/volume history deque: the dicts
`{'timestamp': …, 'price'/'volume': …}` pushed in
`_process_price_data` / `_process_swap_event`. -/
structure Sample where
  timestamp : ℚ
  value : ℚ
  deriving DecidableEq, Repr

/-- `collections.deque(maxlen := cap)` append: the new element goes to the
back, and if the length now exceeds the capacity the oldest elements are
dropped from the front (for a single append, exactly one). -/
def dequePush {α : Type} (cap : Nat) (w : List α) (x : α) : List α :=
  let w' := w ++ [x]
  if cap < w'.length then w'.drop (w'.length - cap) else w'

/-- Association-list lookup (Python `dict.get` / `key in dict`). -/
def lookupKey {κ β : Type} [BEq κ] (m : List (κ × β)) (k : κ) : Option β :=
  (m.find? (fun p => p.1 == k)).map (·.2)

/-- Association-list insertion with overwrite (Python `dict[k] = v`). -/
def insertKey {κ β : Type} [BEq κ] (m : List (κ × β)) (k : κ) (v : β) :
    List (κ × β) :=
  m.filter (fun p => ¬ (p.1 == k)) ++ [(k, v)]

/-- Association-list deletion (Python `del dict[k]`). -/
def eraseKey {κ β : Type} [BEq κ] (m : List (κ × β)) (k : κ) :
    List (κ × β) :=
  m.filter (fun p => ¬ (p.1 == k))

/-- One push into a `defaultdict(lambda: deque(maxlen = cap))`: the window
for `k` is created empty on first use, then appended to with FIFO
eviction. -/
def historyPush (cap : Nat) (h : List (String × List Sample))
    (k : String) (x : Sample) : List (String × List Sample) :=
  insertKey h k (dequePush cap ((lookupKey h k).getD []) x)

/-- The thresholds read from configuration in `AlertManager.__init__`,
with the literal defaults of the source. `cooldownDuration` is
`timedelta(minutes=10)` in seconds. -/
structure Config where
  depegThreshold : ℚ := 5 / 100
  priceChangeThreshold : ℚ := 10 / 100
  volumeSpikeThreshold : ℚ := 2
  cooldownDuration : ℚ := 600
  deriving DecidableEq, Repr

/-- The default configuration (no overrides present). -/
def defaultConfig : Config := {}

/-- The mutable state of an `AlertManager` instance, plus the persisted
alert log `db` (the records passed to `DatabaseManager.insert_alert`). -/
structure AMState where
  activeAlerts : List (Nat × Alert) := []
  priceHistory : List (String × List Sample) := []
  volumeHistory : List (String × List Sample) := []
  alertCooldown : List (String × ℚ) := []
  nextId : Nat := 0
  db : List Alert := []
  deriving DecidableEq, Repr

/-- The state of a freshly constructed `AlertManager`. -/
def initState : AMState := {}

/-- Modelled from the spec (§6; `dex_monitor/data/database.py` is absent
from the sources): the persistence sink's failure behaviour — a `DbSink`
says, per alert, whether `insert_alert` succeeds. -/
def DbSink : Type := Alert → Bool

/-- The sink on which every `insert_alert` succeeds. -/
def dbAlwaysOk : DbSink := fun _ => true

/-- The sink on which every `insert_alert` raises. -/
def dbNeverOk : DbSink := fun _ => false

/-- Modelled from the spec (§6): `DatabaseManager.insert_alert` appends
the record to the persisted log, or raises; a raise is an `Except.error`
carrying the state at the raise point. -/
def dbInsert (sink : DbSink) (s : AMState) (a : Alert) :
    Except AMState AMState :=
  if sink a then .ok { s with db := s.db ++ [a] } else .error s

/-- `AlertManager._is_on_cooldown`: an absent key is not on cooldown;
otherwise the key is on cooldown while `now - lastFired < duration`. -/
def isOnCooldown (cfg : Config) (s : AMState) (now : ℚ) (key : String) :
    Bool :=
  match lookupKey s.alertCooldown key with
  | none => false
  | some t => decide (now - t < cfg.cooldownDuration)

/-- The callback type registered via `add_alert_callback`: a consumer
either returns normally or raises. -/
def Callback : Type := Alert → Except String Unit

/-- The `for callback in self.alert_callbacks` loop of
`AlertManager._emit_alert`: each callback is invoked with the alert in
registration order; an exception from one is caught and logged and the
loop continues with the next. The returned list records each
invocation's outcome in order. -/
def runCallbacks : List Callback → Alert → List (Except String Unit)
  | [], _ => []
  | cb :: rest, a => cb a :: runCallbacks rest a

/-- `AlertManager._emit_alert`, state effects: store in the active-alert
map keyed by id, then store in the database (which may raise — callback
invocation is `emitAlertFull`). -/
def emitAlert (sink : DbSink) (s : AMState) (a : Alert) :
    Except AMState AMState :=
  let s0 := { s with activeAlerts := insertKey s.activeAlerts a.id a }
  dbInsert sink s0 a

/-- `AlertManager._emit_alert` including the callback loop: the state
effects of `emitAlert` happen first, then every registered callback is
invoked (with per-callback exception isolation). Defined for the
non-raising sink case, where the loop is reached. -/
def emitAlertFull (cbs : List Callback) (s : AMState) (a : Alert) :
    AMState × List (Except String Unit) :=
  ({ s with activeAlerts := insertKey s.activeAlerts a.id a,
            db := s.db ++ [a] },
   runCallbacks cbs a)

/-- The identity key used for volume windows and in alert payloads:
`f"{pair.pair_name}_{pair.pool_address}"`. -/
def pairKey (p : TradingPair) : String :=
  p.pairName ++ "_" ++ p.poolAddress

/-- The recognized stablecoin set of `_process_price_data`. -/
def stablecoinSymbols : List String := ["USDC", "USDT", "DAI", "FRAX"]

/-- The hard-coded USDT token of `_check_stablecoin_depeg`. -/
def usdtCompanionToken : Token :=
  { symbol := "USDT",
    address := "0xdac17f958d2ee523a2206206994597c13d831ec7",
    decimals := 6, name := "Tether USD" }

/-- The mock companion pair constructed in `_check_stablecoin_depeg` when
the depegged token's symbol is `USDC`. -/
def mkUSDCCompanionPair (token : Token) : TradingPair :=
  { token0 := token, token1 := usdtCompanionToken,
    poolAddress := "0x3416cf6c708da44db2624d63ea0aaef7113527c6",
    feeTier := 1 / 10000 }

/-- The severity ladder of `_check_stablecoin_depeg`: `CRITICAL` above
20% deviation, `HIGH` above 10%, else `MEDIUM`. -/
def depegSeverity (deviation : ℚ) : AlertSeverity :=
  if deviation > 20 / 100 then .critical
  else if deviation > 10 / 100 then .high
  else .medium

/-- `AlertManager._check_stablecoin_depeg`: deviation of the price from
the $1 peg; above the threshold and off cooldown, a companion pair is
resolved (only for `USDC`); if one resolves, the alert is emitted and
the cooldown for `"depeg_" + symbol` is marked at the current time; if
none resolves, nothing further happens (neither emission nor cooldown
marking — both sit under `if relevant_pair:` in the source). -/
def checkStablecoinDepeg (cfg : Config) (sink : DbSink) (now : ℚ)
    (s : AMState) (pd : PriceData) : Except AMState (AMState × List Alert) :=
  let expectedPrice : ℚ := 1
  let actualPrice := pd.priceUsd
  let deviation := |actualPrice - expectedPrice| / expectedPrice
  if deviation > cfg.depegThreshold then
    let cooldownKey := "depeg_" ++ pd.token.symbol
    if isOnCooldown cfg s now cooldownKey then .ok (s, [])
    else
      let severity := depegSeverity deviation
      let relevantPair : Option TradingPair :=
        if pd.token.symbol = "USDC" then some (mkUSDCCompanionPair pd.token)
        else none
      match relevantPair with
      | some pair =>
        let alert : Alert :=
          { id := s.nextId, timestamp := pd.timestamp,
            eventType := .depegAlert, severity := severity,
            title := "Token Depeg Alert: " ++ pd.token.symbol,
            extra := .depeg pd.token expectedPrice actualPrice
              (deviation * 100) pair }
        match emitAlert sink { s with nextId := s.nextId + 1 } alert with
        | .error s1 => .error s1
        | .ok s1 =>
          .ok ({ s1 with
                  alertCooldown := insertKey s1.alertCooldown cooldownKey now },
               [alert])
      | none => .ok (s, [])
  else .ok (s, [])

/-- The average of `volume_data[-10:-1]` in `_check_volume_spike`: the 9
samples immediately preceding the current one. -/
def recentAvg (volumeData : List Sample) : ℚ :=
  let recentVolumes :=
    ((volumeData.drop (volumeData.length - 10)).dropLast).map (·.value)
  recentVolumes.sum / (recentVolumes.length : ℚ)

/-- `AlertManager._check_volume_spike`: requires at least 10 samples in
the pair's window; computes the average of the 9 samples preceding the
current one; fires (off cooldown) when the average is positive and the
current volume exceeds `average × spike threshold`; severity `HIGH`
above a 5× multiplier, else `MEDIUM`; marks the cooldown for
`"volume_spike_" + pool_address` on fire. -/
def checkVolumeSpike (cfg : Config) (sink : DbSink) (now : ℚ)
    (s : AMState) (pair : TradingPair) (currentVolume : ℚ) :
    Except AMState (AMState × List Alert) :=
  let volumeData := (lookupKey s.volumeHistory (pairKey pair)).getD []
  if volumeData.length < 10 then .ok (s, [])
  else
    let avgVolume := recentAvg volumeData
    if avgVolume > 0 ∧ currentVolume > avgVolume * cfg.volumeSpikeThreshold
    then
      let cooldownKey := "volume_spike_" ++ pair.poolAddress
      if isOnCooldown cfg s now cooldownKey then .ok (s, [])
      else
        let spikeMultiplier := currentVolume / avgVolume
        let severity : AlertSeverity :=
          if spikeMultiplier > 5 then .high else .medium
        let alert : Alert :=
          { id := s.nextId, timestamp := now, eventType := .volumeSpike,
            severity := severity,
            title := "Volume Spike Alert: " ++ pair.pairName,
            extra := .volume pair currentVolume avgVolume spikeMultiplier }
        match emitAlert sink { s with nextId := s.nextId + 1 } alert with
        | .error s1 => .error s1
        | .ok s1 =>
          .ok ({ s1 with
                  alertCooldown := insertKey s1.alertCooldown cooldownKey now },
               [alert])
    else .ok (s, [])

/-- `AlertManager._process_swap_event`: pushes the USD volume
(`amount_in × (token_in.current_price or 1.0)` — the Python `or` also
replaces a price of `0.0` by `1.0`) into the pair's window (capacity 50),
then checks for a volume spike. `_check_price_movement` is `pass` in the
source, so the `event.price > 0` branch has no effect. -/
def processSwapEvent (cfg : Config) (sink : DbSink) (now : ℚ)
    (s : AMState) (e : SwapEvent) : Except AMState (AMState × List Alert) :=
  let volumeUsd :=
    e.amountIn *
      (match e.tokenIn.currentPrice with
       | none => 1
       | some p => if p = 0 then 1 else p)
  let s0 := { s with
    volumeHistory :=
      historyPush 50 s.volumeHistory (pairKey e.pair)
        ⟨e.timestamp, volumeUsd⟩ }
  checkVolumeSpike cfg sink now s0 e.pair volumeUsd

/-- `AlertManager._process_liquidity_event`: only `LIQUIDITY_REMOVE`
events with `|liquidity_delta|` above the hard-coded $1,000,000 threshold
produce an alert, of fixed severity `HIGH` and with no cooldown. -/
def processLiquidityEvent (sink : DbSink) (s : AMState)
    (e : LiquidityEvent) : Except AMState (AMState × List Alert) :=
  if e.eventType = EventType.liquidityRemove then
    let liquidityUsd := |e.liquidityDelta|
    if liquidityUsd > 1000000 then
      let alert : Alert :=
        { id := s.nextId, timestamp := e.timestamp,
          eventType := .liquidityRemove, severity := .high,
          title := "Large Liquidity Removal: " ++ e.pair.pairName }
      match emitAlert sink { s with nextId := s.nextId + 1 } alert with
      | .error s1 => .error s1
      | .ok s1 => .ok (s1, [alert])
    else .ok (s, [])
  else .ok (s, [])

/-- The generic 24h price-change rule at the end of
`_process_price_data`: guarded by Python truthiness of
`price_change_24h` (both `None` and `0.0` skip), it fires when
`|change| > threshold × 100`, `HIGH` above 20, else `MEDIUM`. -/
def checkPriceChange (cfg : Config) (sink : DbSink) (s : AMState)
    (pd : PriceData) : Except AMState (AMState × List Alert) :=
  match pd.priceChange24h with
  | none => .ok (s, [])
  | some ch =>
    if ch ≠ 0 ∧ |ch| > cfg.priceChangeThreshold * 100 then
      let severity : AlertSeverity := if |ch| > 20 then .high else .medium
      let alert : Alert :=
        { id := s.nextId, timestamp := pd.timestamp,
          eventType := .priceChange, severity := severity,
          title := "Significant Price Change: " ++ pd.token.symbol }
      match emitAlert sink { s with nextId := s.nextId + 1 } alert with
      | .error s1 => .error s1
      | .ok s1 => .ok (s1, [alert])
    else .ok (s, [])

/-- `AlertManager._process_price_data`: push the price into the token's
history window (capacity 100); run the depeg check when the symbol is a
recognized stablecoin; then run the generic price-change rule. -/
def processPriceData (cfg : Config) (sink : DbSink) (now : ℚ)
    (s : AMState) (pd : PriceData) : Except AMState (AMState × List Alert) :=
  let s0 := { s with
    priceHistory :=
      historyPush 100 s.priceHistory pd.token.symbol
        ⟨pd.timestamp, pd.priceUsd⟩ }
  let step1 : Except AMState (AMState × List Alert) :=
    if pd.token.symbol ∈ stablecoinSymbols then
      checkStablecoinDepeg cfg sink now s0 pd
    else .ok (s0, [])
  match step1 with
  | .error s1 => .error s1
  | .ok (s1, as1) =>
    match checkPriceChange cfg sink s1 pd with
    | .error s2 => .error s2
    | .ok (s2, as2) => .ok (s2, as1 ++ as2)

/-- The `isinstance` dispatch inside the `try:` of
`AlertManager.process_event`; an event matched by no branch falls
through and is ignored. -/
def processEventCore (cfg : Config) (sink : DbSink) (now : ℚ)
    (s : AMState) : Event → Except AMState (AMState × List Alert)
  | .swap e => processSwapEvent cfg sink now s e
  | .liquidity e => processLiquidityEvent sink s e
  | .price d => processPriceData cfg sink now s d
  | .other => .ok (s, [])

/-- `AlertManager.process_event`: the dispatch wrapped in
`try/except Exception`, so an exception raised by any handler is caught
and logged and the method returns normally, with the state as it was at
the raise point. -/
def processEvent (cfg : Config) (sink : DbSink) (now : ℚ) (s : AMState)
    (ev : Event) : AMState × List Alert :=
  match processEventCore cfg sink now s ev with
  | .ok r => r
  | .error s' => (s', [])

/-- Processing a stream of events through `process_event`, accumulating
the emitted alerts. -/
def processEvents (cfg : Config) (sink : DbSink) (now : ℚ)
    (s : AMState) (evs : List Event) : AMState × List Alert :=
  evs.foldl
    (fun acc ev =>
      let r := processEvent cfg sink now acc.1 ev
      (r.1, acc.2 ++ r.2))
    (s, [])

/-- `AlertManager.resolve_alert`: a missing id is a silent no-op; a
present id has its alert marked resolved (in place, so the active map
sees the update), written to the database, then removed from the active
map. -/
def resolveAlert (sink : DbSink) (now : ℚ) (s : AMState)
    (alertId : Nat) : Except AMState AMState :=
  match lookupKey s.activeAlerts alertId with
  | none => .ok s
  | some a =>
    let a' := a.resolve now
    let s0 := { s with activeAlerts := insertKey s.activeAlerts alertId a' }
    match dbInsert sink s0 a' with
    | .error s1 => .error s1
    | .ok s1 => .ok { s1 with activeAlerts := eraseKey s1.activeAlerts alertId }

/-- `AlertManager.get_active_alerts`: the values of the active map. -/
def getActiveAlerts (s : AMState) : List Alert :=
  s.activeAlerts.map (·.2)

/-! ### Helper lemmas about the association-list and window primitives -/

theorem lookupKey_insert_self {κ β : Type} [BEq κ] [LawfulBEq κ]
    (m : List (κ × β)) (k : κ) (v : β) :
    lookupKey (insertKey m k v) k = some v := by
  unfold lookupKey insertKey
  rw [List.find?_append]
  have hnone : (m.filter (fun p => ¬ (p.1 == k))).find? (fun p => p.1 == k)
      = none := by
    rw [List.find?_eq_none]
    intro p hp
    have := List.of_mem_filter hp
    simpa using this
  simp [hnone]

theorem eraseKey_insertKey {κ β : Type} [BEq κ] [LawfulBEq κ]
    (m : List (κ × β)) (k : κ) (v : β) :
    eraseKey (insertKey m k v) k = eraseKey m k := by
  unfold eraseKey insertKey
  rw [List.filter_append]
  simp

theorem lookupKey_eraseKey {κ β : Type} [BEq κ] [LawfulBEq κ]
    (m : List (κ × β)) (k : κ) :
    lookupKey (eraseKey m k) k = none := by
  unfold lookupKey eraseKey
  have hnone : (m.filter (fun p => ¬ (p.1 == k))).find? (fun p => p.1 == k)
      = none := by
    rw [List.find?_eq_none]
    intro p hp
    have := List.of_mem_filter hp
    simpa using this
  simp [hnone]

theorem dequePush_eq_drop {α : Type} (cap : Nat) (w : List α) (x : α) :
    dequePush cap w x = (w ++ [x]).drop (w.length + 1 - cap) := by
  unfold dequePush
  by_cases h : cap < (w ++ [x]).length
  · simp only [if_pos h]
    simp [List.length_append]
  · simp only [if_neg h]
    have : w.length + 1 - cap = 0 := by
      simp [List.length_append] at h
      omega
    simp [this]

theorem foldl_dequePush_char {α : Type} (cap : Nat) (xs : List α) :
    List.foldl (dequePush cap) [] xs = xs.drop (xs.length - cap) := by
  induction xs using List.reverseRecOn with
  | nil => simp
  | append_singleton ys y ih =>
    rw [List.foldl_append, ih]
    simp only [List.foldl_cons, List.foldl_nil]
    rw [dequePush_eq_drop, List.length_drop]
    rcases Nat.lt_or_ge ys.length cap with h | h
    · have h1 : ys.length - cap = 0 := by omega
      have h2 : ys.length - (ys.length - cap) + 1 - cap = 0 := by omega
      have h3 : (ys ++ [y]).length - cap = 0 := by
        simp only [List.length_append, List.length_cons, List.length_nil]
        omega
      simp [h1, h2, h3]
    · have h1 : ys.length - (ys.length - cap) + 1 - cap = 1 := by omega
      rw [h1]
      rcases Nat.eq_zero_or_pos cap with hc | hc
      · subst hc
        simp [List.drop_length, List.drop_eq_nil_of_le, List.length_append]
      · have h4 : 1 ≤ (List.drop (ys.length - cap) ys).length := by
          rw [List.length_drop]; omega
        rw [List.drop_append_of_le_length h4, List.drop_drop]
        have h5 : (ys ++ [y]).length - cap = ys.length - cap + 1 := by
          simp only [List.length_append, List.length_cons, List.length_nil]
          omega
        rw [h5,
          List.drop_append_of_le_length (by omega : ys.length - cap + 1 ≤ ys.length)]

theorem runCallbacks_eq_map (cbs : List Callback) (a : Alert) :
    runCallbacks cbs a = cbs.map (fun cb => cb a) := by
  induction cbs with
  | nil => rfl
  | cons cb rest ih => simp [runCallbacks, ih]

theorem runCallbacks_append (l₁ l₂ : List Callback) (a : Alert) :
    runCallbacks (l₁ ++ l₂) a = runCallbacks l₁ a ++ runCallbacks l₂ a := by
  simp [runCallbacks_eq_map]

/-! ### Concrete entities used by witnesses and counterexamples -/

/-- A USDC token as used by the simulator/tests. -/
def tokUSDC : Token :=
  { symbol := "USDC", address := "0xa0b86a33e6441b2c30b7ade5c3e77eeddbfe1fd8",
    decimals := 6, name := "USD Coin" }

/-- A USDT token. -/
def tokUSDT : Token :=
  { symbol := "USDT", address := "0xdac17f958d2ee523a2206206994597c13d831ec7",
    decimals := 6, name := "Tether USD" }

/-- A WETH token with a known price of $1 is deliberately unrealistic but
keeps the USD volume of a swap equal to its input amount. -/
def tokWETH : Token :=
  { symbol := "WETH", address := "0xc02aaa39b223fe8d0a0e5c4f27ead9083c756cc2",
    decimals := 18, name := "Wrapped Ether", currentPrice := some 1 }

/-- The trading pair used by concrete events below. -/
def wPair : TradingPair :=
  { token0 := tokUSDC, token1 := tokWETH,
    poolAddress := "0x88e6a0c2ddd26feeb64f039a2c41296fcb3f5640",
    feeTier := 5 / 10000 }

/-- A liquidity event on `wPair` with the given kind and delta. -/
def mkLiq (kind : EventType) (delta : ℚ) : LiquidityEvent :=
  { timestamp := 0, pair := wPair, eventType := kind,
    liquidityDelta := delta, provider := "0xprovider" }

/-- A price update for the given token at the given USD price (no 24h
change reported). -/
def mkPrice (tok : Token) (price : ℚ) : PriceData :=
  { timestamp := 0, token := tok, priceUsd := price }

/-- A swap of the given input amount on `wPair`, paying in WETH priced at
$1, so that its USD volume equals the input amount. -/
def mkSwap (amt : ℚ) : SwapEvent :=
  { timestamp := 0, pair := wPair, tokenIn := tokWETH, tokenOut := tokUSDC,
    amountIn := amt, amountOut := amt, price := 1,
    transactionHash := "0xcafe", blockNumber := 1 }

/-! ### Claims -/

/-- C5: the large-removal rule fires only on `REMOVE` events whose
`|liquidity_delta|` strictly exceeds 1,000,000, with severity fixed at
`HIGH`; every other liquidity event (including every `ADD`, and removals
at or below the threshold such as 999,999) leaves the state unchanged
and emits nothing, while a removal of e.g. 1,500,000 emits one `HIGH`
alert. -/
theorem liquidity_large_removal_rule (sink : DbSink) (s : AMState)
    (e : LiquidityEvent) :
    (¬ (e.eventType = EventType.liquidityRemove ∧ |e.liquidityDelta| > 1000000) →
      processLiquidityEvent sink s e = .ok (s, []))
    ∧ (e.eventType = EventType.liquidityRemove → |e.liquidityDelta| > 1000000 →
      ∃ a : Alert,
        processLiquidityEvent dbAlwaysOk s e
          = .ok ({ s with nextId := s.nextId + 1,
                          activeAlerts := insertKey s.activeAlerts s.nextId a,
                          db := s.db ++ [a] }, [a])
        ∧ a.severity = AlertSeverity.high
        ∧ a.eventType = EventType.liquidityRemove) := by
  constructor
  · intro h
    unfold processLiquidityEvent
    by_cases h1 : e.eventType = EventType.liquidityRemove
    · have h2 : ¬ |e.liquidityDelta| > 1000000 := fun hgt => h ⟨h1, hgt⟩
      simp [h1, h2]
    · simp [h1]
  · intro h1 h2
    refine ⟨{ id := s.nextId, timestamp := e.timestamp,
              eventType := .liquidityRemove, severity := .high,
              title := "Large Liquidity Removal: " ++ e.pair.pairName },
            ?_, rfl, rfl⟩
    unfold processLiquidityEvent
    simp [h1, h2, emitAlert, dbInsert, dbAlwaysOk]

/-- Witness for C5: a REMOVE of 1,500,000 fires a `HIGH` alert, a REMOVE
of 999,999 does not, and an ADD of 99,999,999 does not. -/
theorem liquidity_large_removal_rule_witness :
    (¬ ((mkLiq .liquidityAdd 99999999).eventType = EventType.liquidityRemove
        ∧ |(mkLiq .liquidityAdd 99999999).liquidityDelta| > 1000000)
      ∧ processLiquidityEvent dbAlwaysOk initState (mkLiq .liquidityAdd 99999999)
          = .ok (initState, []))
    ∧ (¬ ((mkLiq .liquidityRemove 999999).eventType = EventType.liquidityRemove
        ∧ |(mkLiq .liquidityRemove 999999).liquidityDelta| > 1000000)
      ∧ processLiquidityEvent dbAlwaysOk initState (mkLiq .liquidityRemove 999999)
          = .ok (initState, []))
    ∧ ((mkLiq .liquidityRemove 1500000).eventType = EventType.liquidityRemove
      ∧ |(mkLiq .liquidityRemove 1500000).liquidityDelta| > 1000000
      ∧ ∃ a : Alert,
          processLiquidityEvent dbAlwaysOk initState (mkLiq .liquidityRemove 1500000)
            = .ok ({ initState with
                       nextId := initState.nextId + 1,
                       activeAlerts :=
                         insertKey initState.activeAlerts initState.nextId a,
                       db := initState.db ++ [a] }, [a])
          ∧ a.severity = AlertSeverity.high
          ∧ a.eventType = EventType.liquidityRemove) :=
  ⟨⟨by decide,
    (liquidity_large_removal_rule dbAlwaysOk initState (mkLiq .liquidityAdd 99999999)).1
      (by decide)⟩,
   ⟨by decide,
    (liquidity_large_removal_rule dbAlwaysOk initState (mkLiq .liquidityRemove 999999)).1
      (by decide)⟩,
   by decide, by decide,
   (liquidity_large_removal_rule dbAlwaysOk initState (mkLiq .liquidityRemove 1500000)).2
     (by decide) (by decide)⟩

/-- C8: a rolling window (`dequePush`, used at capacity 100 for per-token
price samples and 50 for per-pair volume samples) holds, after any
sequence of pushes into an initially empty window, exactly the last
`cap` pushed samples in insertion order — in particular never more than
`cap` elements; a push into a non-full window appends, and a push into a
full window (capacity at least 1) drops exactly the oldest sample and
keeps the rest in order. -/
theorem rolling_window_capacity_fifo {α : Type} (cap : Nat) (xs : List α)
    (w : List α) (x : α) :
    List.foldl (dequePush cap) [] xs = xs.drop (xs.length - cap)
    ∧ (List.foldl (dequePush cap) [] xs).length ≤ cap
    ∧ (w.length < cap → dequePush cap w x = w ++ [x])
    ∧ (1 ≤ cap → w.length = cap → dequePush cap w x = w.tail ++ [x]) := by
  refine ⟨foldl_dequePush_char cap xs, ?_, ?_, ?_⟩
  · rw [foldl_dequePush_char, List.length_drop]; omega
  · intro h
    rw [dequePush_eq_drop]
    have h1 : w.length + 1 - cap = 0 := by omega
    rw [h1, List.drop_zero]
  · intro hc hl
    rw [dequePush_eq_drop]
    have h1 : w.length + 1 - cap = 1 := by omega
    rw [h1]
    cases w with
    | nil => simp at hl; omega
    | cons b t => simp

/-- Witness for C8: pushing 1..5 through a capacity-3 window retains
exactly [3,4,5]; a push into the non-full [1,2] appends; a push into the
full [1,2,3] evicts the oldest. -/
theorem rolling_window_capacity_fifo_witness :
    (List.foldl (dequePush 3) [] [1, 2, 3, 4, 5]
        = ([1, 2, 3, 4, 5] : List Nat).drop ([1, 2, 3, 4, 5].length - 3))
    ∧ (([1, 2] : List Nat).length < 3
      ∧ dequePush 3 [1, 2] (9 : Nat) = [1, 2] ++ [9])
    ∧ (1 ≤ 3 ∧ ([1, 2, 3] : List Nat).length = 3
      ∧ dequePush 3 [1, 2, 3] (9 : Nat) = [1, 2, 3].tail ++ [9]) :=
  ⟨(rolling_window_capacity_fifo 3 [1, 2, 3, 4, 5] ([] : List Nat) 0).1,
   ⟨by decide,
    (rolling_window_capacity_fifo 3 ([] : List Nat) [1, 2] 9).2.2.1 (by decide)⟩,
   by decide, by decide,
   (rolling_window_capacity_fifo 3 ([] : List Nat) [1, 2, 3] 9).2.2.2
     (by decide) (by decide)⟩

/-- C6: resolving an id absent from the active map returns the state
unchanged (a no-op, not an error); resolving a present id marks that
alert resolved, appends the updated record to persistence, and removes
the id from the active map, so `get_active_alerts` no longer contains
it. -/
theorem resolve_alert_behavior (s : AMState) (now : ℚ) (aid : Nat) :
    (lookupKey s.activeAlerts aid = none →
      resolveAlert dbAlwaysOk now s aid = .ok s)
    ∧ (∀ a : Alert, lookupKey s.activeAlerts aid = some a →
      resolveAlert dbAlwaysOk now s aid
        = .ok { s with activeAlerts := eraseKey s.activeAlerts aid,
                       db := s.db ++ [a.resolve now] }
      ∧ (a.resolve now).resolved = true
      ∧ lookupKey (eraseKey s.activeAlerts aid) aid = none
      ∧ getActiveAlerts { s with activeAlerts := eraseKey s.activeAlerts aid,
                                 db := s.db ++ [a.resolve now] }
          = (eraseKey s.activeAlerts aid).map (·.2)) := by
  constructor
  · intro h
    unfold resolveAlert
    rw [h]
  · intro a h
    refine ⟨?_, rfl, lookupKey_eraseKey _ _, rfl⟩
    unfold resolveAlert
    rw [h]
    simp [dbInsert, dbAlwaysOk, eraseKey_insertKey]

/-- An alert used by concrete witness states. -/
def wAlert : Alert :=
  { id := 0, timestamp := 0, eventType := .priceChange,
    severity := .medium, title := "w" }

/-- A state holding `wAlert` as its only active alert. -/
def wStateActive : AMState := { initState with activeAlerts := [(0, wAlert)] }

/-- Witness for C6: in a state whose only active alert has id 0,
resolving id 99 is a no-op and resolving id 0 removes and persists it. -/
theorem resolve_alert_behavior_witness :
    (lookupKey wStateActive.activeAlerts 99 = none
      ∧ resolveAlert dbAlwaysOk 5 wStateActive 99 = .ok wStateActive)
    ∧ (lookupKey wStateActive.activeAlerts 0 = some wAlert
      ∧ resolveAlert dbAlwaysOk 5 wStateActive 0
          = .ok { wStateActive with
                    activeAlerts := eraseKey wStateActive.activeAlerts 0,
                    db := wStateActive.db ++ [wAlert.resolve 5] }
      ∧ (wAlert.resolve 5).resolved = true
      ∧ lookupKey (eraseKey wStateActive.activeAlerts 0) 0 = none) :=
  ⟨⟨by decide,
    (resolve_alert_behavior wStateActive 5 99).1 (by decide)⟩,
   by decide,
   ((resolve_alert_behavior wStateActive 5 0).2 wAlert (by decide)).1,
   ((resolve_alert_behavior wStateActive 5 0).2 wAlert (by decide)).2.1,
   ((resolve_alert_behavior wStateActive 5 0).2 wAlert (by decide)).2.2.1⟩

/-- C7: emission state effects happen independently of the callbacks,
every registered callback is invoked with the emitted alert in
registration order, and a callback that raises does not prevent any
later callback from being invoked with the same alert nor abort the
emission. -/
theorem callback_failure_isolation (cbs cbs₁ cbs₂ : List Callback)
    (f : Callback) (a : Alert) (s : AMState) (e : String)
    (hf : f a = .error e) :
    (emitAlertFull cbs s a).2 = cbs.map (fun cb => cb a)
    ∧ (emitAlertFull (cbs₁ ++ f :: cbs₂) s a).2
        = runCallbacks cbs₁ a ++ Except.error e :: runCallbacks cbs₂ a
    ∧ (runCallbacks cbs₂ a).length = cbs₂.length
    ∧ (emitAlertFull (cbs₁ ++ f :: cbs₂) s a).1 = (emitAlertFull [] s a).1 := by
  refine ⟨runCallbacks_eq_map cbs a, ?_, ?_, rfl⟩
  · show runCallbacks (cbs₁ ++ f :: cbs₂) a = _
    rw [runCallbacks_append]
    simp [runCallbacks, hf]
  · simp [runCallbacks_eq_map]

/-- A callback that always raises. -/
def failingCB : Callback := fun _ => .error "boom"

/-- A callback that always succeeds. -/
def okCB : Callback := fun _ => .ok ()

/-- Witness for C7: with a failing callback registered before a correct
one, the correct one still receives the alert and the emission's state
effects are those of an emission with no callbacks at all. -/
theorem callback_failure_isolation_witness :
    failingCB wAlert = .error "boom"
    ∧ (emitAlertFull ([] ++ failingCB :: [okCB]) initState wAlert).2
        = runCallbacks [] wAlert
            ++ Except.error "boom" :: runCallbacks [okCB] wAlert
    ∧ (runCallbacks [okCB] wAlert).length = [okCB].length
    ∧ (emitAlertFull ([] ++ failingCB :: [okCB]) initState wAlert).1
        = (emitAlertFull [] initState wAlert).1 :=
  ⟨rfl,
   (callback_failure_isolation [] [] [okCB] failingCB wAlert initState "boom" rfl).2.1,
   (callback_failure_isolation [] [] [okCB] failingCB wAlert initState "boom" rfl).2.2.1,
   (callback_failure_isolation [] [] [okCB] failingCB wAlert initState "boom" rfl).2.2.2⟩

/-- C10: `process_event` returns normally for every event: an event of
unrecognized type falls through the dispatch and is ignored without
error, an exception raised anywhere inside dispatch or rule evaluation
(e.g. by a failing persistence insert) is caught, leaving the state as
it was at the raise point, and a normal result is passed through. -/
theorem process_event_never_raises (cfg : Config) (sink : DbSink) (now : ℚ)
    (s : AMState) (ev : Event) :
    processEvent cfg sink now s Event.other = (s, [])
    ∧ (∀ s₁, processEventCore cfg sink now s ev = .error s₁ →
        processEvent cfg sink now s ev = (s₁, []))
    ∧ (∀ r, processEventCore cfg sink now s ev = .ok r →
        processEvent cfg sink now s ev = r) := by
  refine ⟨rfl, ?_, ?_⟩
  · intro s₁ h
    unfold processEvent
    rw [h]
  · intro r h
    unfold processEvent
    rw [h]

/-- The state at the raise point when a large-removal insert fails on the
fresh state: the alert is already in the active map, nothing reached the
database. -/
def wErrState : AMState :=
  { initState with
      nextId := 1,
      activeAlerts :=
        [(0, { id := 0, timestamp := 0, eventType := .liquidityRemove,
               severity := .high,
               title := "Large Liquidity Removal: " ++ wPair.pairName })] }

/-- Witness for C10: with a sink whose inserts always fail, a large
removal raises inside `_emit_alert`, and `process_event` still returns
normally with the partially updated state; an unrecognized event is
ignored. -/
theorem process_event_never_raises_witness :
    processEvent defaultConfig dbNeverOk 0 initState Event.other
        = (initState, [])
    ∧ processEventCore defaultConfig dbNeverOk 0 initState
        (Event.liquidity (mkLiq .liquidityRemove 1500000)) = .error wErrState
    ∧ processEvent defaultConfig dbNeverOk 0 initState
        (Event.liquidity (mkLiq .liquidityRemove 1500000)) = (wErrState, []) :=
  ⟨(process_event_never_raises defaultConfig dbNeverOk 0 initState Event.other).1,
   by rfl,
   (process_event_never_raises defaultConfig dbNeverOk 0 initState
       (Event.liquidity (mkLiq .liquidityRemove 1500000))).2.1 wErrState (by rfl)⟩

/-! ### Helper lemmas about the depeg and price-change rules -/

theorem checkDepeg_below (cfg : Config) (sink : DbSink) (now : ℚ)
    (s : AMState) (pd : PriceData)
    (h : ¬ |pd.priceUsd - 1| / 1 > cfg.depegThreshold) :
    checkStablecoinDepeg cfg sink now s pd = .ok (s, []) := by
  unfold checkStablecoinDepeg
  rw [if_neg h]

theorem checkDepeg_suppressed (cfg : Config) (sink : DbSink) (now : ℚ)
    (s : AMState) (pd : PriceData)
    (hcd : isOnCooldown cfg s now ("depeg_" ++ pd.token.symbol) = true) :
    checkStablecoinDepeg cfg sink now s pd = .ok (s, []) := by
  unfold checkStablecoinDepeg
  by_cases h : |pd.priceUsd - 1| / 1 > cfg.depegThreshold
  · rw [if_pos h, if_pos hcd]
  · rw [if_neg h]

theorem checkDepeg_nonUSDC (cfg : Config) (sink : DbSink) (now : ℚ)
    (s : AMState) (pd : PriceData) (hne : ¬ pd.token.symbol = "USDC") :
    checkStablecoinDepeg cfg sink now s pd = .ok (s, []) := by
  unfold checkStablecoinDepeg
  by_cases h : |pd.priceUsd - 1| / 1 > cfg.depegThreshold
  · rw [if_pos h]
    by_cases hcd : isOnCooldown cfg s now ("depeg_" ++ pd.token.symbol) = true
    · rw [if_pos hcd]
    · rw [if_neg hcd, if_neg hne]
  · rw [if_neg h]

/-- The depeg alert record constructed by `_check_stablecoin_depeg` when
it fires (abbreviation used to state the firing lemma). -/
def mkDepegAlert (s : AMState) (pd : PriceData) : Alert :=
  { id := s.nextId, timestamp := pd.timestamp, eventType := .depegAlert,
    severity := depegSeverity (|pd.priceUsd - 1| / 1),
    title := "Token Depeg Alert: " ++ pd.token.symbol,
    extra := .depeg pd.token 1 pd.priceUsd (|pd.priceUsd - 1| / 1 * 100)
      (mkUSDCCompanionPair pd.token) }

theorem checkDepeg_usdc_fires (cfg : Config) (now : ℚ) (s : AMState)
    (pd : PriceData) (hsym : pd.token.symbol = "USDC")
    (hdev : |pd.priceUsd - 1| / 1 > cfg.depegThreshold)
    (hcd : isOnCooldown cfg s now ("depeg_" ++ pd.token.symbol) = false) :
    checkStablecoinDepeg cfg dbAlwaysOk now s pd
      = .ok ({ s with
                 nextId := s.nextId + 1,
                 activeAlerts :=
                   insertKey s.activeAlerts s.nextId (mkDepegAlert s pd),
                 db := s.db ++ [mkDepegAlert s pd],
                 alertCooldown :=
                   insertKey s.alertCooldown ("depeg_" ++ pd.token.symbol) now },
             [mkDepegAlert s pd]) := by
  unfold checkStablecoinDepeg
  rw [if_pos hdev, if_neg (by rw [hcd]; exact Bool.false_ne_true)]
  rw [if_pos hsym]
  simp [emitAlert, dbInsert, dbAlwaysOk, mkDepegAlert]

theorem checkPriceChange_ok (cfg : Config) (s : AMState) (pd : PriceData) :
    ∃ s2 as2, checkPriceChange cfg dbAlwaysOk s pd = .ok (s2, as2)
      ∧ (∀ a ∈ as2, a.eventType = EventType.priceChange)
      ∧ s2.alertCooldown = s.alertCooldown := by
  unfold checkPriceChange
  split
  · exact ⟨s, [], rfl, by simp, rfl⟩
  · split
    · exact ⟨_, _, rfl, by simp, rfl⟩
    · exact ⟨s, [], rfl, by simp, rfl⟩

theorem checkPriceChange_none (cfg : Config) (sink : DbSink) (s : AMState)
    (pd : PriceData) (hpc : pd.priceChange24h = none) :
    checkPriceChange cfg sink s pd = .ok (s, []) := by
  unfold checkPriceChange
  rw [hpc]

/-- The price-history push at the head of `_process_price_data`
(abbreviation used in lemma statements). -/
def pushPrice (s : AMState) (pd : PriceData) : AMState :=
  { s with
      priceHistory :=
        historyPush 100 s.priceHistory pd.token.symbol
          ⟨pd.timestamp, pd.priceUsd⟩ }

theorem processPriceData_stable_none (cfg : Config) (sink : DbSink)
    (now : ℚ) (s : AMState) (pd : PriceData)
    (hmem : pd.token.symbol ∈ stablecoinSymbols)
    (hpc : pd.priceChange24h = none) :
    processPriceData cfg sink now s pd
      = checkStablecoinDepeg cfg sink now (pushPrice s pd) pd := by
  have harm : ∀ r : Except AMState (AMState × List Alert),
      (match r with
       | .error s1 => .error s1
       | .ok (s1, as1) =>
         match checkPriceChange cfg sink s1 pd with
         | .error s2 => .error s2
         | .ok (s2, as2) => .ok (s2, as1 ++ as2))
        = r := by
    intro r
    cases r with
    | error s1 => rfl
    | ok p =>
      obtain ⟨s1, as1⟩ := p
      show (match checkPriceChange cfg sink s1 pd with
            | Except.error s2 => Except.error s2
            | Except.ok (s2, as2) => Except.ok (s2, as1 ++ as2))
          = Except.ok (s1, as1)
      rw [checkPriceChange_none cfg sink s1 pd hpc]
      simp
  unfold processPriceData
  simp only [hmem, if_true]
  exact harm _

theorem absDev88 : |(88 : ℚ)/100 - 1| / 1 = 12/100 := by
  rw [abs_of_nonpos (by norm_num)]; norm_num

theorem absDev70 : |(70 : ℚ)/100 - 1| / 1 = 30/100 := by
  rw [abs_of_nonpos (by norm_num)]; norm_num

theorem absDev98 : |(98 : ℚ)/100 - 1| / 1 = 2/100 := by
  rw [abs_of_nonpos (by norm_num)]; norm_num

/-- C9: for a recognized stablecoin other than USDC (USDT, DAI, FRAX),
processing a price update never emits a depeg alert and never touches
the cooldown map, however large the deviation: the companion pair is
only constructed for USDC, and both the emission and the cooldown write
sit under the pair check. (The generic 24h price-change rule may still
emit its own, non-depeg alert.) -/
theorem non_usdc_stablecoin_never_depeg_alerts (cfg : Config) (now : ℚ)
    (s : AMState) (pd : PriceData)
    (h : pd.token.symbol = "USDT" ∨ pd.token.symbol = "DAI"
        ∨ pd.token.symbol = "FRAX") :
    ∃ s2 as, processPriceData cfg dbAlwaysOk now s pd = .ok (s2, as)
      ∧ (∀ a ∈ as, a.eventType ≠ EventType.depegAlert)
      ∧ s2.alertCooldown = s.alertCooldown := by
  have hne : ¬ pd.token.symbol = "USDC" := by
    rcases h with h | h | h <;> simp [h]
  have hmem : pd.token.symbol ∈ stablecoinSymbols := by
    rcases h with h | h | h <;> simp [h, stablecoinSymbols]
  obtain ⟨s2, as2, heq2, hev2, hcd2⟩ :=
    checkPriceChange_ok cfg (pushPrice s pd) pd
  have heq : processPriceData cfg dbAlwaysOk now s pd = .ok (s2, [] ++ as2) := by
    unfold processPriceData
    simp only [hmem, if_true]
    rw [checkDepeg_nonUSDC cfg dbAlwaysOk now _ pd hne]
    show (match checkPriceChange cfg dbAlwaysOk (pushPrice s pd) pd with
          | Except.error s3 => Except.error s3
          | Except.ok (s3, as3) => Except.ok (s3, [] ++ as3))
        = Except.ok (s2, [] ++ as2)
    rw [heq2]
  refine ⟨s2, [] ++ as2, heq, ?_, ?_⟩
  · intro a ha
    have hev := hev2 a (by simpa using ha)
    rw [hev]
    decide
  · rw [hcd2]
    rfl

/-- Witness for C9: a USDT update at $0.50 (50% deviation) produces no
depeg alert and leaves the cooldown map untouched. -/
theorem non_usdc_stablecoin_never_depeg_alerts_witness :
    ((mkPrice tokUSDT (50/100)).token.symbol = "USDT"
      ∨ (mkPrice tokUSDT (50/100)).token.symbol = "DAI"
      ∨ (mkPrice tokUSDT (50/100)).token.symbol = "FRAX")
    ∧ ∃ s2 as,
        processPriceData defaultConfig dbAlwaysOk 0 initState
          (mkPrice tokUSDT (50/100)) = .ok (s2, as)
        ∧ (∀ a ∈ as, a.eventType ≠ EventType.depegAlert)
        ∧ s2.alertCooldown = initState.alertCooldown :=
  ⟨Or.inl rfl,
   non_usdc_stablecoin_never_depeg_alerts defaultConfig 0 initState
     (mkPrice tokUSDT (50/100)) (Or.inl rfl)⟩

/-- C1 counterexample: a USDT update at $0.70 (30% deviation, well above
the 5% threshold) with its cooldown key absent: the claim says the
cooldown firing time must be recorded even though no pair is resolvable,
but processing returns with no alert and the cooldown map still empty. -/
theorem depeg_cooldown_unmarked_cex :
    |(mkPrice tokUSDT (70/100)).priceUsd - 1| / 1 > defaultConfig.depegThreshold
    ∧ isOnCooldown defaultConfig initState 0 "depeg_USDT" = false
    ∧ processPriceData defaultConfig dbAlwaysOk 0 initState
        (mkPrice tokUSDT (70/100))
        = .ok (pushPrice initState (mkPrice tokUSDT (70/100)), [])
    ∧ (pushPrice initState (mkPrice tokUSDT (70/100))).alertCooldown = [] := by
  refine ⟨(by rw [absDev70]; norm_num : |(70:ℚ)/100 - 1| / 1 > (5:ℚ)/100),
          rfl, ?_, rfl⟩
  rw [processPriceData_stable_none _ _ _ _ _ (by decide) rfl]
  exact checkDepeg_nonUSDC _ _ _ _ _ (by decide)

/-- C1 (amended): when the deviation exceeds the threshold and the key is
off cooldown, the cooldown firing time is recorded exactly when a
companion pair resolves (i.e. the symbol is USDC, in which case the
alert is emitted and the cooldown marked at the current time); when no
pair is resolvable, the alert is dropped and no cooldown is recorded. -/
theorem depeg_cooldown_marked_iff_pair_resolved (cfg : Config) (now : ℚ)
    (s : AMState) (pd : PriceData)
    (hdev : |pd.priceUsd - 1| / 1 > cfg.depegThreshold)
    (hcd : isOnCooldown cfg s now ("depeg_" ++ pd.token.symbol) = false) :
    (pd.token.symbol = "USDC" →
      ∃ s2, checkStablecoinDepeg cfg dbAlwaysOk now s pd
          = .ok (s2, [mkDepegAlert s pd])
        ∧ lookupKey s2.alertCooldown ("depeg_" ++ pd.token.symbol) = some now)
    ∧ (¬ pd.token.symbol = "USDC" →
      ∀ sink : DbSink, checkStablecoinDepeg cfg sink now s pd = .ok (s, [])) := by
  constructor
  · intro hsym
    exact ⟨_, checkDepeg_usdc_fires cfg now s pd hsym hdev hcd,
           lookupKey_insert_self _ _ _⟩
  · intro hne sink
    exact checkDepeg_nonUSDC cfg sink now s pd hne

/-- Witness for C1: a USDC update at $0.88 fires and records the
cooldown; a USDT update at $0.70 neither fires nor records anything. -/
theorem depeg_cooldown_marked_iff_pair_resolved_witness :
    (|(mkPrice tokUSDC (88/100)).priceUsd - 1| / 1 > defaultConfig.depegThreshold
    ∧ isOnCooldown defaultConfig initState 0
        ("depeg_" ++ (mkPrice tokUSDC (88/100)).token.symbol) = false
    ∧ ∃ s2, checkStablecoinDepeg defaultConfig dbAlwaysOk 0 initState
          (mkPrice tokUSDC (88/100))
          = .ok (s2, [mkDepegAlert initState (mkPrice tokUSDC (88/100))])
        ∧ lookupKey s2.alertCooldown
            ("depeg_" ++ (mkPrice tokUSDC (88/100)).token.symbol) = some 0)
    ∧ checkStablecoinDepeg defaultConfig dbAlwaysOk 0 initState
        (mkPrice tokUSDT (70/100)) = .ok (initState, []) :=
  ⟨⟨(by rw [absDev88]; norm_num : |(88:ℚ)/100 - 1| / 1 > (5:ℚ)/100), rfl,
    (depeg_cooldown_marked_iff_pair_resolved defaultConfig 0 initState
        (mkPrice tokUSDC (88/100))
        (by rw [absDev88]; norm_num : |(88:ℚ)/100 - 1| / 1 > (5:ℚ)/100) rfl).1
      rfl⟩,
   (depeg_cooldown_marked_iff_pair_resolved defaultConfig 0 initState
       (mkPrice tokUSDT (70/100))
       (by rw [absDev70]; norm_num : |(70:ℚ)/100 - 1| / 1 > (5:ℚ)/100) rfl).2
     (by decide) dbAlwaysOk⟩

/-- C3 counterexample: USDT is a recognized stablecoin and its key is off
cooldown, yet a USDT update at $0.88 yields no alert at all (the claim
requires a HIGH depeg alert for every recognized stablecoin at $0.88). -/
theorem depeg_universal_stablecoin_cex :
    (mkPrice tokUSDT (88/100)).token.symbol ∈ stablecoinSymbols
    ∧ isOnCooldown defaultConfig initState 0 "depeg_USDT" = false
    ∧ processPriceData defaultConfig dbAlwaysOk 0 initState
        (mkPrice tokUSDT (88/100))
        = .ok (pushPrice initState (mkPrice tokUSDT (88/100)), []) := by
  refine ⟨by decide, rfl, ?_⟩
  rw [processPriceData_stable_none _ _ _ _ _ (by decide) rfl]
  exact checkDepeg_nonUSDC _ _ _ _ _ (by decide)

/-- C3 (amended): for a USDC price update off cooldown — the one
recognized stablecoin for which a companion pair resolves — a price of
$0.88 yields one depeg alert of severity HIGH, $0.70 yields CRITICAL,
and $0.98 (2% deviation, below the 5% threshold) yields no alert for
any recognized stablecoin. -/
theorem depeg_severity_for_usdc (s : AMState) (now ts : ℚ) (tok : Token)
    (hsym : tok.symbol = "USDC")
    (hcd : isOnCooldown defaultConfig s now ("depeg_" ++ tok.symbol) = false) :
    (∃ s2 a, processPriceData defaultConfig dbAlwaysOk now s
        { timestamp := ts, token := tok, priceUsd := 88/100 } = .ok (s2, [a])
      ∧ a.severity = AlertSeverity.high
      ∧ a.eventType = EventType.depegAlert)
    ∧ (∃ s2 a, processPriceData defaultConfig dbAlwaysOk now s
        { timestamp := ts, token := tok, priceUsd := 70/100 } = .ok (s2, [a])
      ∧ a.severity = AlertSeverity.critical
      ∧ a.eventType = EventType.depegAlert)
    ∧ (∀ tok2 : Token, tok2.symbol ∈ stablecoinSymbols →
      ∃ s2, processPriceData defaultConfig dbAlwaysOk now s
          { timestamp := ts, token := tok2, priceUsd := 98/100 }
        = .ok (s2, [])) := by
  have hmem : tok.symbol ∈ stablecoinSymbols := by
    simp [hsym, stablecoinSymbols]
  refine ⟨?_, ?_, ?_⟩
  · rw [processPriceData_stable_none _ _ _ _ _ hmem rfl]
    refine ⟨_, _, checkDepeg_usdc_fires defaultConfig now _ _ hsym
      (by rw [absDev88]; norm_num : |(88:ℚ)/100 - 1| / 1 > (5:ℚ)/100) hcd,
      ?_, rfl⟩
    show depegSeverity (|(88:ℚ)/100 - 1| / 1) = AlertSeverity.high
    rw [absDev88]
    norm_num [depegSeverity]
  · rw [processPriceData_stable_none _ _ _ _ _ hmem rfl]
    refine ⟨_, _, checkDepeg_usdc_fires defaultConfig now _ _ hsym
      (by rw [absDev70]; norm_num : |(70:ℚ)/100 - 1| / 1 > (5:ℚ)/100) hcd,
      ?_, rfl⟩
    show depegSeverity (|(70:ℚ)/100 - 1| / 1) = AlertSeverity.critical
    rw [absDev70]
    norm_num [depegSeverity]
  · intro tok2 hmem2
    rw [processPriceData_stable_none _ _ _ _ _ hmem2 rfl]
    exact ⟨_, checkDepeg_below _ _ _ _ _
      (by rw [absDev98]; norm_num : ¬ |(98:ℚ)/100 - 1| / 1 > (5:ℚ)/100)⟩

/-- Witness for C3: instantiated at USDC on the fresh state. -/
theorem depeg_severity_for_usdc_witness :
    (tokUSDC.symbol = "USDC"
    ∧ isOnCooldown defaultConfig initState 0 ("depeg_" ++ tokUSDC.symbol)
        = false)
    ∧ (∃ s2 a, processPriceData defaultConfig dbAlwaysOk 0 initState
        { timestamp := 0, token := tokUSDC, priceUsd := 88/100 } = .ok (s2, [a])
      ∧ a.severity = AlertSeverity.high
      ∧ a.eventType = EventType.depegAlert)
    ∧ (∃ s2 a, processPriceData defaultConfig dbAlwaysOk 0 initState
        { timestamp := 0, token := tokUSDC, priceUsd := 70/100 } = .ok (s2, [a])
      ∧ a.severity = AlertSeverity.critical
      ∧ a.eventType = EventType.depegAlert)
    ∧ (∃ s2, processPriceData defaultConfig dbAlwaysOk 0 initState
        { timestamp := 0, token := tokUSDC, priceUsd := 98/100 }
        = .ok (s2, [])) :=
  ⟨⟨rfl, rfl⟩,
   (depeg_severity_for_usdc initState 0 0 tokUSDC rfl rfl).1,
   (depeg_severity_for_usdc initState 0 0 tokUSDC rfl rfl).2.1,
   (depeg_severity_for_usdc initState 0 0 tokUSDC rfl rfl).2.2 tokUSDC
     (by decide)⟩

/-- The USDC price update at $0.88 used in the cooldown-window claim. -/
def pdU : PriceData := mkPrice tokUSDC (88/100)

/-- The fresh state after pushing the first $0.88 sample. -/
def q0 : AMState := pushPrice initState pdU

/-- The alert emitted by the first firing. -/
def dA1 : Alert := mkDepegAlert q0 pdU

/-- The state after the first firing at time `t0`. -/
def q1 (t0 : ℚ) : AMState :=
  { q0 with
      nextId := q0.nextId + 1,
      activeAlerts := insertKey q0.activeAlerts q0.nextId dA1,
      db := q0.db ++ [dA1],
      alertCooldown :=
        insertKey q0.alertCooldown ("depeg_" ++ pdU.token.symbol) t0 }

/-- The state after the suppressed second update. -/
def q2 (t0 : ℚ) : AMState := pushPrice (q1 t0) pdU

/-- C4: a key with no recorded firing is never on cooldown; firing the
USDC depeg key at `t0`, again at `t1` within the 10-minute window, and
again at `t2` at or after expiry yields alerts on exactly the first and
third calls — one alert within the window, a second one after it
elapses. -/
theorem depeg_cooldown_window_behavior (t0 t1 t2 : ℚ)
    (h1 : t1 - t0 < defaultConfig.cooldownDuration)
    (h2 : defaultConfig.cooldownDuration ≤ t2 - t0) :
    (∀ (cfg : Config) (s : AMState) (now : ℚ) (key : String),
      lookupKey s.alertCooldown key = none →
        isOnCooldown cfg s now key = false)
    ∧ ∃ s1 a1 s2 s3 a2,
        processPriceData defaultConfig dbAlwaysOk t0 initState pdU
          = .ok (s1, [a1])
        ∧ processPriceData defaultConfig dbAlwaysOk t1 s1 pdU = .ok (s2, [])
        ∧ processPriceData defaultConfig dbAlwaysOk t2 s2 pdU
          = .ok (s3, [a2]) := by
  have hmem : pdU.token.symbol ∈ stablecoinSymbols := by decide
  have hdev : |pdU.priceUsd - 1| / 1 > defaultConfig.depegThreshold := by
    show |(88:ℚ)/100 - 1| / 1 > (5:ℚ)/100
    rw [absDev88]; norm_num
  constructor
  · intro cfg s now key h
    unfold isOnCooldown
    rw [h]
  · have hcd1 : isOnCooldown defaultConfig q0 t0
        ("depeg_" ++ pdU.token.symbol) = false := rfl
    have e1 := checkDepeg_usdc_fires defaultConfig t0 q0 pdU rfl hdev hcd1
    have hl2 : lookupKey (pushPrice (q1 t0) pdU).alertCooldown
        ("depeg_" ++ pdU.token.symbol) = some t0 :=
      lookupKey_insert_self _ _ _
    have hcd2 : isOnCooldown defaultConfig (pushPrice (q1 t0) pdU) t1
        ("depeg_" ++ pdU.token.symbol) = true := by
      unfold isOnCooldown
      rw [hl2]
      exact decide_eq_true h1
    have e2 := checkDepeg_suppressed defaultConfig dbAlwaysOk t1
      (pushPrice (q1 t0) pdU) pdU hcd2
    have hl3 : lookupKey (pushPrice (q2 t0) pdU).alertCooldown
        ("depeg_" ++ pdU.token.symbol) = some t0 :=
      lookupKey_insert_self _ _ _
    have hcd3 : isOnCooldown defaultConfig (pushPrice (q2 t0) pdU) t2
        ("depeg_" ++ pdU.token.symbol) = false := by
      unfold isOnCooldown
      rw [hl3]
      exact decide_eq_false (not_lt.mpr h2)
    have e3 := checkDepeg_usdc_fires defaultConfig t2 (pushPrice (q2 t0) pdU)
      pdU rfl hdev hcd3
    exact ⟨q1 t0, dA1, q2 t0, _, _,
      (processPriceData_stable_none defaultConfig dbAlwaysOk t0 initState
          pdU hmem rfl).trans e1,
      (processPriceData_stable_none defaultConfig dbAlwaysOk t1 (q1 t0)
          pdU hmem rfl).trans e2,
      (processPriceData_stable_none defaultConfig dbAlwaysOk t2 (q2 t0)
          pdU hmem rfl).trans e3⟩

/-- Witness for C4: firings at times 0, 300 (suppressed) and 600
(fires again, the 10-minute window having just elapsed). -/
theorem depeg_cooldown_window_behavior_witness :
    ((300:ℚ) - 0 < defaultConfig.cooldownDuration
    ∧ defaultConfig.cooldownDuration ≤ (600:ℚ) - 0)
    ∧ ∃ s1 a1 s2 s3 a2,
        processPriceData defaultConfig dbAlwaysOk 0 initState pdU
          = .ok (s1, [a1])
        ∧ processPriceData defaultConfig dbAlwaysOk 300 s1 pdU = .ok (s2, [])
        ∧ processPriceData defaultConfig dbAlwaysOk 600 s2 pdU
          = .ok (s3, [a2]) :=
  ⟨⟨(by norm_num : (300:ℚ) - 0 < 600), (by norm_num : (600:ℚ) ≤ 600 - 0)⟩,
   (depeg_cooldown_window_behavior 0 300 600
       (by norm_num : (300:ℚ) - 0 < 600)
       (by norm_num : (600:ℚ) ≤ 600 - 0)).2⟩

/-! ### Helper lemmas for the volume-spike rule -/

/-- The volume-window key of the concrete pair `wPair`. -/
def volKey : String := pairKey wPair

/-- The volume alert produced by the 3× spike scenario (id `n`). -/
def spikeAlert (n : Nat) (V : ℚ) : Alert :=
  { id := n, timestamp := 0, eventType := .volumeSpike,
    severity := .medium, title := "Volume Spike Alert: " ++ wPair.pairName,
    extra := .volume wPair (3 * V * 1) (V * 1) 3 }

theorem dequePush_replicate {α : Type} (cap m : Nat) (x : α) (hm : m ≤ cap) :
    dequePush cap (List.replicate m x) x
      = List.replicate (min (m + 1) cap) x := by
  rw [dequePush_eq_drop, List.length_replicate]
  rw [show List.replicate m x ++ [x] = List.replicate (m + 1) x from
    (List.replicate_succ' m x).symm]
  rw [List.drop_replicate]
  congr 1
  omega

theorem dequePush_replicate_concat {α : Type} (cap m : Nat) (x y : α)
    (hm : m ≤ cap) (hc : 1 ≤ cap) :
    dequePush cap (List.replicate m x) y
      = List.replicate (min m (cap - 1)) x ++ [y] := by
  rw [dequePush_eq_drop, List.length_replicate]
  rw [List.drop_append_of_le_length (by rw [List.length_replicate]; omega)]
  rw [List.drop_replicate]
  congr 2
  omega

theorem recentAvg_replicate (M : Nat) (hM : 10 ≤ M) (t v : ℚ) :
    recentAvg (List.replicate M ⟨t, v⟩) = v := by
  unfold recentAvg
  rw [List.length_replicate, List.drop_replicate]
  have h10 : M - (M - 10) = 10 := by omega
  rw [h10]
  rw [show (10:ℕ) = 9 + 1 from rfl, List.replicate_succ', List.dropLast_concat]
  simp [List.sum_replicate, nsmul_eq_mul]
  ring

theorem recentAvg_concat (M : Nat) (hM : 9 ≤ M) (t v : ℚ) (y : Sample) :
    recentAvg (List.replicate M ⟨t, v⟩ ++ [y]) = v := by
  unfold recentAvg
  have hlen : (List.replicate M (⟨t, v⟩ : Sample) ++ [y]).length = M + 1 := by
    simp
  rw [hlen]
  have h1 : M + 1 - 10 = M - 9 := by omega
  rw [h1]
  rw [List.drop_append_of_le_length (by rw [List.length_replicate]; omega)]
  rw [List.drop_replicate]
  have h2 : M - (M - 9) = 9 := by omega
  rw [h2]
  rw [List.dropLast_concat]
  simp [List.sum_replicate, nsmul_eq_mul]
  ring

theorem checkVolumeSpike_short (cfg : Config) (sink : DbSink) (now : ℚ)
    (s : AMState) (pair : TradingPair) (cv : ℚ)
    (h : ((lookupKey s.volumeHistory (pairKey pair)).getD []).length < 10) :
    checkVolumeSpike cfg sink now s pair cv = .ok (s, []) := by
  simp only [checkVolumeSpike]
  rw [if_pos h]

theorem checkVolumeSpike_no_trigger (cfg : Config) (sink : DbSink) (now : ℚ)
    (s : AMState) (pair : TradingPair) (cv : ℚ)
    (h : ¬ (recentAvg ((lookupKey s.volumeHistory (pairKey pair)).getD []) > 0
        ∧ cv > recentAvg ((lookupKey s.volumeHistory (pairKey pair)).getD [])
            * cfg.volumeSpikeThreshold)) :
    checkVolumeSpike cfg sink now s pair cv = .ok (s, []) := by
  simp only [checkVolumeSpike]
  by_cases hl : ((lookupKey s.volumeHistory (pairKey pair)).getD []).length < 10
  · rw [if_pos hl]
  · rw [if_neg hl, if_neg h]

theorem checkVolumeSpike_fires (s : AMState) (M : Nat) (V : ℚ)
    (hM : 9 ≤ M) (hV : 0 < V)
    (hlook : (lookupKey s.volumeHistory volKey).getD []
        = List.replicate M ⟨0, V * 1⟩ ++ [⟨0, 3 * V * 1⟩])
    (hcd : s.alertCooldown = []) :
    checkVolumeSpike defaultConfig dbAlwaysOk 0 s wPair (3 * V * 1)
      = .ok ({ s with
                 nextId := s.nextId + 1,
                 activeAlerts :=
                   insertKey s.activeAlerts s.nextId (spikeAlert s.nextId V),
                 db := s.db ++ [spikeAlert s.nextId V],
                 alertCooldown := insertKey s.alertCooldown
                   ("volume_spike_" ++ wPair.poolAddress) 0 },
             [spikeAlert s.nextId V]) := by
  have hkey : pairKey wPair = volKey := rfl
  simp only [checkVolumeSpike, hkey]
  rw [hlook]
  have hlen : (List.replicate M (⟨0, V * 1⟩ : Sample)
      ++ [(⟨0, 3 * V * 1⟩ : Sample)]).length = M + 1 := by simp
  rw [hlen]
  rw [if_neg (by omega : ¬ M + 1 < 10)]
  rw [recentAvg_concat M hM 0 (V * 1) _]
  have hV1 : V * 1 > 0 := by rw [mul_one]; exact hV
  have hgt : 3 * V * 1 > V * 1 * defaultConfig.volumeSpikeThreshold := by
    rw [mul_one, mul_one]
    show 3 * V > V * 2
    linarith
  rw [if_pos ⟨hV1, hgt⟩]
  have hcdf : isOnCooldown defaultConfig s 0
      ("volume_spike_" ++ wPair.poolAddress) = false := by
    unfold isOnCooldown
    rw [hcd]
    rfl
  rw [if_neg (by rw [hcdf]; exact Bool.false_ne_true)]
  have hmul : 3 * V * 1 / (V * 1) = 3 := by
    rw [mul_one, mul_one, mul_div_assoc, div_self (ne_of_gt hV), mul_one]
  rw [hmul]
  rw [if_neg (by norm_num : ¬ (3:ℚ) > 5)]
  simp [emitAlert, dbInsert, dbAlwaysOk, spikeAlert]

theorem processEvents_go (cfg : Config) (sink : DbSink) (now : ℚ)
    (t : List Event) :
    ∀ (s : AMState) (out : List Alert),
      List.foldl (fun acc ev =>
          let r := processEvent cfg sink now acc.1 ev
          (r.1, acc.2 ++ r.2)) (s, out) t
        = ((processEvents cfg sink now s t).1,
           out ++ (processEvents cfg sink now s t).2) := by
  induction t with
  | nil =>
    intro s out
    simp [processEvents]
  | cons e t ih =>
    intro s out
    simp only [List.foldl_cons]
    rw [ih]
    conv_rhs => rw [processEvents]
    simp only [List.foldl_cons]
    rw [ih]
    simp [List.append_assoc]

theorem processEvents_cons (cfg : Config) (sink : DbSink) (now : ℚ)
    (s : AMState) (e : Event) (t : List Event) :
    processEvents cfg sink now s (e :: t)
      = ((processEvents cfg sink now (processEvent cfg sink now s e).1 t).1,
         (processEvent cfg sink now s e).2
           ++ (processEvents cfg sink now
                 (processEvent cfg sink now s e).1 t).2) := by
  conv_lhs => rw [processEvents]
  simp only [List.foldl_cons]
  rw [processEvents_go]
  simp


theorem processEvents_cons_eq (cfg : Config) (sink : DbSink) (now : ℚ)
    (s : AMState) (e : Event) (t : List Event) (s₁ : AMState)
    (as₁ : List Alert) (h : processEvent cfg sink now s e = (s₁, as₁)) :
    processEvents cfg sink now s (e :: t)
      = ((processEvents cfg sink now s₁ t).1,
         as₁ ++ (processEvents cfg sink now s₁ t).2) := by
  rw [processEvents_cons, h]

/-- The state after replacing `wPair`'s volume window (abbreviation for
the swap-processing lemmas). -/
def pushVol (s : AMState) (w : List Sample) : AMState :=
  { s with volumeHistory := insertKey s.volumeHistory volKey w }

theorem lookup_pushVol (s : AMState) (w : List Sample) :
    (lookupKey (pushVol s w).volumeHistory (pairKey wPair)).getD [] = w := by
  show (lookupKey (insertKey s.volumeHistory volKey w) volKey).getD [] = w
  rw [lookupKey_insert_self]
  rfl

theorem baseline_step (V : ℚ) (m : Nat) (s : AMState) (hm : m ≤ 50)
    (hlook : (lookupKey s.volumeHistory volKey).getD []
        = List.replicate m ⟨0, V * 1⟩) :
    processEvent defaultConfig dbAlwaysOk 0 s (Event.swap (mkSwap V))
      = (pushVol s (List.replicate (min (m + 1) 50) ⟨0, V * 1⟩), []) := by
  show (match checkVolumeSpike defaultConfig dbAlwaysOk 0
      (pushVol s (dequePush 50 ((lookupKey s.volumeHistory volKey).getD [])
        ⟨0, V * 1⟩)) wPair (V * 1) with
    | .ok r => r
    | .error s1 => (s1, []))
    = (pushVol s (List.replicate (min (m + 1) 50) ⟨0, V * 1⟩), [])
  rw [hlook, dequePush_replicate 50 m _ hm]
  by_cases hM : min (m + 1) 50 < 10
  · rw [checkVolumeSpike_short _ _ _ _ _ _
      (by rw [lookup_pushVol, List.length_replicate]; exact hM)]
  · have hno : ¬ (recentAvg ((lookupKey (pushVol s
        (List.replicate (min (m + 1) 50) ⟨0, V * 1⟩)).volumeHistory
        (pairKey wPair)).getD []) > 0
      ∧ V * 1 > recentAvg ((lookupKey (pushVol s
          (List.replicate (min (m + 1) 50) ⟨0, V * 1⟩)).volumeHistory
          (pairKey wPair)).getD [])
        * defaultConfig.volumeSpikeThreshold) := by
      rw [lookup_pushVol,
        recentAvg_replicate (min (m + 1) 50) (by omega) 0 (V * 1)]
      rintro ⟨c1, c2⟩
      have ht : defaultConfig.volumeSpikeThreshold = 2 := rfl
      rw [ht] at c2
      rw [mul_one] at c1
      nlinarith
    rw [checkVolumeSpike_no_trigger _ _ _ _ _ _ hno]

theorem spike_step (V : ℚ) (hV : 0 < V) (m : Nat) (s : AMState)
    (hm9 : 9 ≤ m) (hm50 : m ≤ 50)
    (hlook : (lookupKey s.volumeHistory volKey).getD []
        = List.replicate m ⟨0, V * 1⟩)
    (hcd : s.alertCooldown = []) :
    ∃ s', processEvent defaultConfig dbAlwaysOk 0 s
        (Event.swap (mkSwap (3 * V)))
      = (s', [spikeAlert s.nextId V]) := by
  have hstep : processEvent defaultConfig dbAlwaysOk 0 s
      (Event.swap (mkSwap (3 * V)))
      = (match checkVolumeSpike defaultConfig dbAlwaysOk 0
          (pushVol s (List.replicate (min m (50 - 1)) ⟨0, V * 1⟩
            ++ [⟨0, 3 * V * 1⟩])) wPair (3 * V * 1) with
        | .ok r => r
        | .error s1 => (s1, [])) := by
    show (match checkVolumeSpike defaultConfig dbAlwaysOk 0
        (pushVol s (dequePush 50 ((lookupKey s.volumeHistory volKey).getD [])
          ⟨0, 3 * V * 1⟩)) wPair (3 * V * 1) with
      | .ok r => r
      | .error s1 => (s1, [])) = _
    rw [hlook, dequePush_replicate_concat 50 m _ _ hm50 (by norm_num)]
  rw [hstep]
  rw [checkVolumeSpike_fires
    (pushVol s (List.replicate (min m (50 - 1)) (⟨0, V * 1⟩ : Sample)
      ++ [(⟨0, 3 * V * 1⟩ : Sample)]))
    (min m (50 - 1)) V (by omega) hV
    (lookup_pushVol s (List.replicate (min m (50 - 1)) (⟨0, V * 1⟩ : Sample)
      ++ [(⟨0, 3 * V * 1⟩ : Sample)]))
    hcd]
  exact ⟨_, rfl⟩

theorem spike_run (V : ℚ) (hV : 0 < V) :
    ∀ (k m : Nat) (s : AMState), 9 ≤ m + k → m ≤ 50 →
      (lookupKey s.volumeHistory volKey).getD []
        = List.replicate m ⟨0, V * 1⟩ →
      s.alertCooldown = [] →
      ∃ s' n, processEvents defaultConfig dbAlwaysOk 0 s
          (List.replicate k (Event.swap (mkSwap V))
            ++ [Event.swap (mkSwap (3 * V))])
        = (s', [spikeAlert n V]) := by
  intro k
  induction k with
  | zero =>
    intro m s hm9 hm50 hlook hcd
    simp only [List.replicate_zero, List.nil_append]
    obtain ⟨s', heq⟩ := spike_step V hV m s (by omega) hm50 hlook hcd
    rw [processEvents_cons_eq defaultConfig dbAlwaysOk 0 s _ [] s' _ heq]
    exact ⟨s', s.nextId, by simp [processEvents]⟩
  | succ k ih =>
    intro m s hm9 hm50 hlook hcd
    rw [List.replicate_succ, List.cons_append]
    rw [processEvents_cons_eq defaultConfig dbAlwaysOk 0 s _ _ _ _
      (baseline_step V m s hm50 hlook)]
    obtain ⟨s', n, heq⟩ := ih (min (m + 1) 50)
      (pushVol s (List.replicate (min (m + 1) 50) ⟨0, V * 1⟩))
      (by omega) (by omega)
      (lookup_pushVol s (List.replicate (min (m + 1) 50) ⟨0, V * 1⟩)) hcd
    rw [heq]
    exact ⟨s', n, by simp⟩

/-- C2: pushing at least 10 volume samples for one pool — a constant
positive baseline `V` followed by one final sample of `3 × V` — emits
exactly one volume alert, with spike multiplier exactly 3 and severity
`MEDIUM`; moreover the rule evaluates nothing until the window holds 10
samples, and it fires only when the average of the 9 samples preceding
the current one is positive and the current volume exceeds that average
times the spike threshold. -/
theorem volume_spike_exactly_once (V : ℚ) (k : Nat) (hV : 0 < V)
    (hk : 9 ≤ k) :
    (∃ s' n, processEvents defaultConfig dbAlwaysOk 0 initState
        (List.replicate k (Event.swap (mkSwap V))
          ++ [Event.swap (mkSwap (3 * V))])
      = (s', [spikeAlert n V])
      ∧ (spikeAlert n V).severity = AlertSeverity.medium
      ∧ (spikeAlert n V).eventType = EventType.volumeSpike
      ∧ (spikeAlert n V).extra = AlertExtra.volume wPair (3 * V * 1) (V * 1) 3)
    ∧ (∀ (cfg : Config) (sink : DbSink) (now : ℚ) (s : AMState)
        (pair : TradingPair) (cv : ℚ),
        ((lookupKey s.volumeHistory (pairKey pair)).getD []).length < 10 →
        checkVolumeSpike cfg sink now s pair cv = .ok (s, []))
    ∧ (∀ (cfg : Config) (sink : DbSink) (now : ℚ) (s : AMState)
        (pair : TradingPair) (cv : ℚ) (s' : AMState) (as : List Alert),
        checkVolumeSpike cfg sink now s pair cv = .ok (s', as) → as ≠ [] →
        recentAvg ((lookupKey s.volumeHistory (pairKey pair)).getD []) > 0
        ∧ cv > recentAvg ((lookupKey s.volumeHistory (pairKey pair)).getD [])
            * cfg.volumeSpikeThreshold) := by
  refine ⟨?_, ?_, ?_⟩
  · obtain ⟨s', n, heq⟩ :=
      spike_run V hV k 0 initState (by omega) (by omega) rfl rfl
    exact ⟨s', n, heq, rfl, rfl, rfl⟩
  · intro cfg sink now s pair cv h
    exact checkVolumeSpike_short cfg sink now s pair cv h
  · intro cfg sink now s pair cv s' as heq hne
    by_cases hcond :
        recentAvg ((lookupKey s.volumeHistory (pairKey pair)).getD []) > 0
        ∧ cv > recentAvg ((lookupKey s.volumeHistory (pairKey pair)).getD [])
            * cfg.volumeSpikeThreshold
    · exact hcond
    · rw [checkVolumeSpike_no_trigger cfg sink now s pair cv hcond] at heq
      simp only [Except.ok.injEq, Prod.mk.injEq] at heq
      exact absurd heq.2.symm hne

/-- Witness for C2: nine baseline swaps of 100 USD followed by one of
300 USD produce exactly one MEDIUM alert with multiplier 3. -/
theorem volume_spike_exactly_once_witness :
    ((0 : ℚ) < 100 ∧ 9 ≤ 9)
    ∧ ∃ s' n, processEvents defaultConfig dbAlwaysOk 0 initState
        (List.replicate 9 (Event.swap (mkSwap 100))
          ++ [Event.swap (mkSwap (3 * 100))])
      = (s', [spikeAlert n 100])
      ∧ (spikeAlert n 100).severity = AlertSeverity.medium
      ∧ (spikeAlert n 100).eventType = EventType.volumeSpike
      ∧ (spikeAlert n 100).extra
          = AlertExtra.volume wPair (3 * 100 * 1) (100 * 1) 3 :=
  ⟨⟨by norm_num, by norm_num⟩,
   (volume_spike_exactly_once 100 9 (by norm_num) (by norm_num)).1⟩
